import Mathlib

/-
Shallow embedding of the etasker task-management backend.

Source files embedded:
  - src/server/src/middleware/auth.ts  (authenticateToken, requireAdmin)
  - src/server/src/routes/tasks.ts     (createTaskSchema, updateTaskSchema,
                                        GET /, GET /:id, POST /, PUT /:id, DELETE /:id)
  - src/shared/schema.ts               (tasks table shape)

Modelling conventions:
  - The database is a pure value: a list of task rows plus the next serial id.
  - Each route handler is a pure function from its request data and the store
    to a result and the (possibly updated) store.
  - JavaScript Date values are modelled as integers (millisecond timestamps)
    supplied as a `now` parameter where the code calls `new Date()`; a due-date
    produced by `new Date(isoString)` is modelled by keeping the validated ISO
    string itself (an injective encoding of the instant — no claim compares
    dates across representations).
  - jwt.verify is an external library call; it is modelled as an abstract
    verification function passed as a parameter, returning either the decoded
    claims, a JsonWebTokenError outcome, or any-other-exception outcome,
    mirroring the try/catch structure of authenticateToken.
  - JavaScript parseInt (radix auto-detection, leading-whitespace and sign
    handling, NaN on no digits) is modelled by jsParseInt, with none playing
    the role of NaN.
-/

namespace Etasker

/-- Task row, following the tasks table of src/shared/schema.ts and the columns
written by the route handlers in src/server/src/routes/tasks.ts. -/
structure Task where
  id : Int
  title : String
  description : Option String
  status : String
  priority : String
  projectId : Int
  assignedTo : Option Int
  createdBy : Int
  dueDate : Option String
  createdAt : Int
  updatedAt : Int
deriving DecidableEq, Repr

/-- The persistent store: task rows plus the generator for the serial id column. -/
structure Store where
  tasks : List Task
  nextId : Int
deriving DecidableEq, Repr

/-- The identity attached to a request after credential verification
(req.user in auth.ts: numeric id plus role string). -/
structure Identity where
  id : Int
  role : String
deriving DecidableEq, Repr

/-- An HTTP error response: status code plus the error message body. -/
structure ErrorResponse where
  status : Nat
  error : String
deriving DecidableEq, Repr

/-- Outcome of an Express middleware: either call next() with the attached
identity, or halt with an error response. -/
inductive MwResult where
  | next (user : Identity)
  | halt (e : ErrorResponse)
deriving DecidableEq, Repr

/-- Outcome of the external jwt.verify call as observed by the try/catch in
authenticateToken: decoded claims, a jwt.JsonWebTokenError (which covers
invalid, tampered and expired tokens — TokenExpiredError extends it), or any
other thrown error. -/
inductive VerifyOutcome where
  | ok (userId : Int) (role : String)
  | tokenError
  | internalError
deriving DecidableEq, Repr

/-- Split of a character list at a separator, matching JavaScript
String.split with a single-character separator: the empty string yields one
empty field, and adjacent separators yield empty fields. -/
def splitOnChar (sep : Char) : List Char → List (List Char)
  | [] => [[]]
  | c :: r =>
    let rest := splitOnChar sep r
    if c = sep then [] :: rest
    else
      match rest with
      | [] => [[c]]
      | f :: fs => (c :: f) :: fs

/-- Token extraction from auth.ts lines 31-32:
`const token = authHeader && authHeader.split(' ')[1]`, with JavaScript
truthiness: a missing header, an empty header, a header with no second
space-separated part, or an empty second part all leave no token. -/
def extractToken (authHeader : Option String) : Option String :=
  match authHeader with
  | none => none
  | some h =>
    if h = "" then none
    else
      match (splitOnChar ' ' h.data)[1]? with
      | none => none
      | some t => if t.isEmpty then none else some (String.mk t)

/-- Embedding of authenticateToken (auth.ts lines 25-54), parameterised by the
external jwt.verify behaviour. -/
def authenticateToken (verify : String → VerifyOutcome) (authHeader : Option String) :
    MwResult :=
  match extractToken authHeader with
  | none => MwResult.halt ⟨401, "Access token required"⟩
  | some t =>
    match verify t with
    | VerifyOutcome.ok uid role => MwResult.next ⟨uid, role⟩
    | VerifyOutcome.tokenError => MwResult.halt ⟨403, "Invalid or expired token"⟩
    | VerifyOutcome.internalError => MwResult.halt ⟨500, "Authentication error"⟩

/-- Embedding of requireAdmin (auth.ts lines 59-75). -/
def requireAdmin (user : Option Identity) : MwResult :=
  match user with
  | none => MwResult.halt ⟨401, "Authentication required"⟩
  | some u =>
    if u.role ≠ "admin" then MwResult.halt ⟨403, "Admin access required"⟩
    else MwResult.next u

/-- Whitespace characters skipped by the JavaScript ToNumber/parseInt
machinery (the common ones; exotic Unicode spaces are out of scope). -/
def jsWhitespace (c : Char) : Bool :=
  c = ' ' || c = '\t' || c = '\n' || c = '\r' || c = '\x0b' || c = '\x0c'

/-- Numeric value of a hexadecimal digit, none otherwise. -/
def hexVal (c : Char) : Option Nat :=
  if '0' ≤ c ∧ c ≤ '9' then some (c.toNat - '0'.toNat)
  else if 'a' ≤ c ∧ c ≤ 'f' then some (c.toNat - 'a'.toNat + 10)
  else if 'A' ≤ c ∧ c ≤ 'F' then some (c.toNat - 'A'.toNat + 10)
  else none

/-- Accumulate the leading digits of a character list in the given base,
returning the digits consumed and the rest. -/
def takeDigits (base : Nat) (l : List Char) : List Nat × List Char :=
  match l with
  | [] => ([], [])
  | c :: r =>
    match hexVal c with
    | some v =>
      if v < base then
        let (ds, rest) := takeDigits base r
        (v :: ds, rest)
      else ([], c :: r)
    | none => ([], c :: r)

/-- Fold a digit list into a natural number. -/
def digitsToNat (base : Nat) (ds : List Nat) : Nat :=
  ds.foldl (fun acc d => acc * base + d) 0

/-- Model of JavaScript parseInt(s) with no radix argument: skip leading
whitespace, read an optional sign, auto-detect a 0x/0X prefix (hexadecimal),
otherwise parse leading decimal digits; none models NaN (no digits parsed). -/
def jsParseInt (s : String) : Option Int :=
  let l := s.data.dropWhile jsWhitespace
  let signAndRest : Int × List Char :=
    match l with
    | '-' :: r => (-1, r)
    | '+' :: r => (1, r)
    | _ => (1, l)
  let sign := signAndRest.1
  let body := signAndRest.2
  let baseAndDigits : Nat × List Char :=
    match body with
    | '0' :: x :: r => if x = 'x' ∨ x = 'X' then (16, r) else (10, body)
    | _ => (10, body)
  let ds := (takeDigits baseAndDigits.1 baseAndDigits.2).1
  if ds.isEmpty then none
  else some (sign * (digitsToNat baseAndDigits.1 ds : Int))

/-- JavaScript truthiness for an optional query-parameter string: a missing
parameter and an empty-string value are both falsy (tasks.ts lines 41-53 test
each parameter with a bare `if (param)`). -/
def truthy (o : Option String) : Option String :=
  match o with
  | none => none
  | some s => if s = "" then none else some s

/-- Model of the SQL clause `column LIKE '%needle%'` built at tasks.ts lines
56-57: a case-sensitive substring test (decidable via List.decidableInfix). -/
def likeContains (needle hay : String) : Bool :=
  decide (List.IsInfix needle.data hay.data)

/-- The optional query parameters of GET /api/tasks (tasks.ts line 36), each a
raw request string when present. -/
structure ListQuery where
  status : Option String
  priority : Option String
  projectId : Option String
  assignedTo : Option String
  search : Option String
deriving DecidableEq, Repr

/-- The query with no parameter provided. -/
def emptyQuery : ListQuery := ⟨none, none, none, none, none⟩

/-- Equality clause for a string column (tasks.ts lines 41-46): pushed only
when the parameter is truthy, so an absent clause constrains nothing. -/
def strClause (o : Option String) (x : String) : Bool :=
  match truthy o with
  | some s => x == s
  | none => true

/-- Equality clause for a non-nullable integer column against a parseInt-ed
parameter (tasks.ts lines 47-49): a NaN operand matches no row. -/
def intEqClause (o : Option String) (x : Int) : Bool :=
  match truthy o with
  | some s =>
    match jsParseInt s with
    | some n => x == n
    | none => false
  | none => true

/-- Equality clause for a nullable integer column against a parseInt-ed
parameter (tasks.ts lines 50-52): a NULL column or a NaN operand matches no
row. -/
def optIntEqClause (o : Option String) (x : Option Int) : Bool :=
  match truthy o with
  | some s =>
    match jsParseInt s, x with
    | some n, some a => a == n
    | _, _ => false
  | none => true

/-- Disjunctive search clause (tasks.ts lines 53-60): LIKE on the title or on
the description; a NULL description matches nothing. -/
def searchClause (o : Option String) (title : String) (description : Option String) :
    Bool :=
  match truthy o with
  | some s =>
    likeContains s title ||
      (match description with
       | some d => likeContains s d
       | none => false)
  | none => true

/-- The dynamic WHERE predicate built by GET /api/tasks (tasks.ts lines 39-66):
one equality clause per truthy parameter, and for search a disjunctive LIKE
clause over title and description; the conjunction of zero clauses is no
filter at all. -/
def matchesQuery (q : ListQuery) (t : Task) : Bool :=
  strClause q.status t.status &&
  strClause q.priority t.priority &&
  intEqClause q.projectId t.projectId &&
  optIntEqClause q.assignedTo t.assignedTo &&
  searchClause q.search t.title t.description

/-- The ordering used by `orderBy(desc(tasks.createdAt))` (tasks.ts line 67):
later creation time first. -/
def createdDesc (a b : Task) : Prop := b.createdAt ≤ a.createdAt

instance : DecidableRel createdDesc := fun a b => by
  unfold createdDesc; infer_instance

instance : IsTotal Task createdDesc :=
  ⟨fun a b => (le_total b.createdAt a.createdAt).imp id id⟩

instance : IsTrans Task createdDesc :=
  ⟨fun _ _ _ hab hbc => le_trans hbc hab⟩

/-- Embedding of GET /api/tasks (tasks.ts lines 34-77): filter by the built
predicate (no filter when no clause), order by creation time descending, and
return the rows together with their count. -/
def listTasks (q : ListQuery) (store : Store) : List Task × Nat :=
  let taskList := List.insertionSort createdDesc (store.tasks.filter (matchesQuery q))
  (taskList, taskList.length)

/-- The status enum of createTaskSchema / updateTaskSchema (tasks.ts lines 14, 24). -/
def statusValues : List String := ["todo", "in_progress", "review", "done"]

/-- The priority enum of createTaskSchema / updateTaskSchema (tasks.ts lines 15, 25). -/
def priorityValues : List String := ["low", "medium", "high", "critical"]

/-- Check for a fractional-seconds-then-Z tail of an ISO datetime: either a
bare terminating Z, or a dot, at least one digit, then Z. -/
def fracSecondsZ (l : List Char) : Bool :=
  match l with
  | ['Z'] => true
  | '.' :: r =>
    let ds := r.takeWhile Char.isDigit
    !ds.isEmpty && (r.drop ds.length == ['Z'])
  | _ => false

/-- Model of the zod z.string().datetime() check (default options): the shape
YYYY-MM-DDTHH:MM:SS followed by optional fractional seconds and a terminating
Z (UTC only, no offsets). -/
def isDatetimeString (s : String) : Bool :=
  match s.data with
  | y1 :: y2 :: y3 :: y4 :: '-' :: m1 :: m2 :: '-' :: d1 :: d2 :: 'T' ::
      h1 :: h2 :: ':' :: n1 :: n2 :: ':' :: s1 :: s2 :: rest =>
    [y1, y2, y3, y4, m1, m2, d1, d2, h1, h2, n1, n2, s1, s2].all Char.isDigit &&
      fracSecondsZ rest
  | _ => false

/-- Raw JSON body of POST /api/tasks as the handler sees it: every schema field
possibly absent, plus a createdBy key that a client may supply — zod object
parsing strips unknown keys, and the handler never reads it. -/
structure RawCreatePayload where
  title : Option String
  description : Option String
  status : Option String
  priority : Option String
  projectId : Option Int
  assignedTo : Option Int
  dueDate : Option String
  createdBy : Option Int
deriving DecidableEq, Repr

/-- Output of a successful createTaskSchema.parse: title and projectId are
mandatory, status and priority carry their defaults when absent. -/
structure CreateData where
  title : String
  description : Option String
  status : String
  priority : String
  projectId : Int
  assignedTo : Option Int
  dueDate : Option String
deriving DecidableEq, Repr

/-- Embedding of createTaskSchema.parse (tasks.ts lines 11-19): title required
non-empty, status and priority restricted to their enums and defaulted to
todo/medium when omitted, projectId a required positive integer, assignedTo an
optional positive integer, dueDate an optional ISO datetime string; none
models a thrown ZodError. -/
def createTaskSchema (p : RawCreatePayload) : Option CreateData :=
  match p.title, p.projectId with
  | some t, some pid =>
    let titleOk := 1 ≤ t.length
    let statusOk :=
      match p.status with
      | some s => statusValues.contains s
      | none => true
    let priorityOk :=
      match p.priority with
      | some s => priorityValues.contains s
      | none => true
    let projectOk := 0 < pid
    let assignedOk :=
      match p.assignedTo with
      | some a => 0 < a
      | none => true
    let dueOk :=
      match p.dueDate with
      | some d => isDatetimeString d
      | none => true
    if titleOk && statusOk && priorityOk && projectOk && assignedOk && dueOk then
      some
        { title := t
          description := p.description
          status := (p.status.getD "todo")
          priority := (p.priority.getD "medium")
          projectId := pid
          assignedTo := p.assignedTo
          dueDate := p.dueDate }
    else none
  | _, _ => none

/-- Raw JSON body of PUT /api/tasks/:id: every schema field optional, plus a
createdBy key a client may supply (stripped by zod, never written). -/
structure RawUpdatePayload where
  title : Option String
  description : Option String
  status : Option String
  priority : Option String
  assignedTo : Option Int
  dueDate : Option String
  createdBy : Option Int
deriving DecidableEq, Repr

/-- Output of a successful updateTaskSchema.parse: exactly the provided keys
survive, no defaults are applied. -/
structure UpdateData where
  title : Option String
  description : Option String
  status : Option String
  priority : Option String
  assignedTo : Option Int
  dueDate : Option String
deriving DecidableEq, Repr

/-- Conjunction of the per-field checks of updateTaskSchema (tasks.ts lines
21-28): each field optional, constrained exactly as in the create schema when
present. -/
def updateChecks (p : RawUpdatePayload) : Bool :=
  (match p.title with
   | some t => 1 ≤ t.length
   | none => true) &&
  (match p.status with
   | some s => statusValues.contains s
   | none => true) &&
  (match p.priority with
   | some s => priorityValues.contains s
   | none => true) &&
  (match p.assignedTo with
   | some a => 0 < a
   | none => true) &&
  (match p.dueDate with
   | some d => isDatetimeString d
   | none => true)

/-- Embedding of updateTaskSchema.parse (tasks.ts lines 21-28): on success the
provided keys pass through unchanged; unknown keys (createdBy) are stripped. -/
def updateTaskSchema (p : RawUpdatePayload) : Option UpdateData :=
  if updateChecks p then
    some
      { title := p.title
        description := p.description
        status := p.status
        priority := p.priority
        assignedTo := p.assignedTo
        dueDate := p.dueDate }
  else none

/-- Result of POST /api/tasks: 201 with the created row, or a 400 ZodError
response ("Validation error"). A storage-layer failure (500) is outside the
pure model; it is in any case not a 404. -/
inductive CreateResult where
  | created (task : Task)
  | validationFailed
deriving DecidableEq, Repr

/-- HTTP status of a create outcome (tasks.ts lines 134, 140). -/
def CreateResult.httpStatus : CreateResult → Nat
  | CreateResult.created _ => 201
  | CreateResult.validationFailed => 400

/-- Embedding of POST /api/tasks (tasks.ts lines 114-146): validate the body,
then insert a row whose createdBy is the authenticated identity id — the
values object never reads a createdBy from the payload — with dueDate the
parsed date when provided and null otherwise, and the serial id and defaultNow
timestamps supplied by the store and clock. -/
def createTaskRoute (user : Identity) (body : RawCreatePayload) (now : Int)
    (store : Store) : CreateResult × Store :=
  match createTaskSchema body with
  | none => (CreateResult.validationFailed, store)
  | some v =>
    let newTask : Task :=
      { id := store.nextId
        title := v.title
        description := v.description
        status := v.status
        priority := v.priority
        projectId := v.projectId
        assignedTo := v.assignedTo
        createdBy := user.id
        dueDate := v.dueDate
        createdAt := now
        updatedAt := now }
    (CreateResult.created newTask, ⟨store.tasks ++ [newTask], store.nextId + 1⟩)

/-- Lookup used by the :id routes: `select().from(tasks).where(eq(tasks.id,
taskId)).limit(1)` returns the first row with that id, if any. -/
def findTask (taskId : Int) (l : List Task) : Option Task :=
  l.find? (fun t => t.id == taskId)

/-- Result of GET /api/tasks/:id. -/
inductive GetResult where
  | found (task : Task)
  | invalidId
  | notFound
deriving DecidableEq, Repr

/-- HTTP status and error body of a read outcome (tasks.ts lines 88, 99, 103). -/
def GetResult.response : GetResult → Nat × Option String
  | GetResult.found _ => (200, none)
  | GetResult.invalidId => (400, some "Invalid task ID")
  | GetResult.notFound => (404, some "Task not found")

/-- Embedding of GET /api/tasks/:id (tasks.ts lines 83-108): parseInt the path
parameter, reject NaN with 400, then look the task up. -/
def getTaskRoute (idStr : String) (store : Store) : GetResult :=
  match jsParseInt idStr with
  | none => GetResult.invalidId
  | some taskId =>
    match findTask taskId store.tasks with
    | none => GetResult.notFound
    | some t => GetResult.found t

/-- Merge step of PUT /api/tasks/:id (tasks.ts lines 176-190):
`{...validatedData, updatedAt: new Date()}` spreads exactly the keys present
in the validated body over the existing row (absent optional keys are absent
from the zod output, and drizzle set() writes only the keys present), with
dueDate re-parsed to a Date when provided. -/
def applyUpdate (v : UpdateData) (now : Int) (t : Task) : Task :=
  { t with
    title := v.title.getD t.title
    description :=
      match v.description with
      | some d => some d
      | none => t.description
    status := v.status.getD t.status
    priority := v.priority.getD t.priority
    assignedTo :=
      match v.assignedTo with
      | some a => some a
      | none => t.assignedTo
    dueDate :=
      match v.dueDate with
      | some d => some d
      | none => t.dueDate
    updatedAt := now }

/-- Result of PUT /api/tasks/:id. -/
inductive UpdateResult where
  | updated (task : Task)
  | invalidId
  | validationFailed
  | notFound
deriving DecidableEq, Repr

/-- HTTP status and error body of an update outcome
(tasks.ts lines 157, 172, 192, 198). -/
def UpdateResult.response : UpdateResult → Nat × Option String
  | UpdateResult.updated _ => (200, none)
  | UpdateResult.invalidId => (400, some "Invalid task ID")
  | UpdateResult.validationFailed => (400, some "Validation error")
  | UpdateResult.notFound => (404, some "Task not found")

/-- Embedding of PUT /api/tasks/:id (tasks.ts lines 152-204), in source order:
parseInt the id (400 on NaN), validate the body (400 ZodError), check
existence (404), then write the merged row for every row matching the id and
return the merged first match. -/
def updateTaskRoute (idStr : String) (body : RawUpdatePayload) (now : Int)
    (store : Store) : UpdateResult × Store :=
  match jsParseInt idStr with
  | none => (UpdateResult.invalidId, store)
  | some taskId =>
    match updateTaskSchema body with
    | none => (UpdateResult.validationFailed, store)
    | some v =>
      match findTask taskId store.tasks with
      | none => (UpdateResult.notFound, store)
      | some existing =>
        (UpdateResult.updated (applyUpdate v now existing),
         ⟨store.tasks.map (fun t => if t.id == taskId then applyUpdate v now t else t),
          store.nextId⟩)

/-- Result of DELETE /api/tasks/:id. -/
inductive DeleteResult where
  | deleted
  | invalidId
  | notFound
deriving DecidableEq, Repr

/-- HTTP status and error body of a delete outcome (tasks.ts lines 215, 227, 236). -/
def DeleteResult.response : DeleteResult → Nat × Option String
  | DeleteResult.deleted => (200, none)
  | DeleteResult.invalidId => (400, some "Invalid task ID")
  | DeleteResult.notFound => (404, some "Task not found")

/-- Embedding of DELETE /api/tasks/:id (tasks.ts lines 210-243): parseInt the
id (400 on NaN), check existence (404), then remove every row with that id. -/
def deleteTaskRoute (idStr : String) (store : Store) : DeleteResult × Store :=
  match jsParseInt idStr with
  | none => (DeleteResult.invalidId, store)
  | some taskId =>
    match findTask taskId store.tasks with
    | none => (DeleteResult.notFound, store)
    | some _ =>
      (DeleteResult.deleted,
       ⟨store.tasks.filter (fun t => !(t.id == taskId)), store.nextId⟩)

/-
Theorems settling the claims.
-/

/-- A successful createTaskSchema.parse is exactly the field-wise copy of the
payload with status and priority defaulted; in particular the stray createdBy
key never reaches the output. -/
theorem createTaskSchema_fields (p : RawCreatePayload) (v : CreateData)
    (hv : createTaskSchema p = some v) :
    v.status = p.status.getD "todo" ∧
    v.priority = p.priority.getD "medium" ∧
    (∃ t, p.title = some t ∧ v.title = t) ∧
    v.description = p.description ∧
    (∃ pid, p.projectId = some pid ∧ v.projectId = pid) ∧
    v.assignedTo = p.assignedTo ∧
    v.dueDate = p.dueDate := by
  unfold createTaskSchema at hv
  cases hpt : p.title with
  | none => rw [hpt] at hv; exact absurd hv (by simp)
  | some t =>
    cases hpp : p.projectId with
    | none => rw [hpt, hpp] at hv; exact absurd hv (by simp)
    | some pid =>
      rw [hpt, hpp] at hv
      simp only [] at hv
      split at hv
      · cases hv
        exact ⟨rfl, rfl, ⟨t, rfl, rfl⟩, rfl, ⟨pid, rfl, rfl⟩, rfl, rfl⟩
      · cases hv

/-- A successful updateTaskSchema.parse is exactly the field-wise copy of the
payload; the stray createdBy key is stripped and no defaults are applied. -/
theorem updateTaskSchema_fields (p : RawUpdatePayload) (v : UpdateData)
    (hv : updateTaskSchema p = some v) :
    v = ⟨p.title, p.description, p.status, p.priority, p.assignedTo, p.dueDate⟩ := by
  unfold updateTaskSchema at hv
  split at hv
  · cases hv
    rfl
  · cases hv

/-- Case-sensitive substring relation between strings, the meaning the spec
assigns to the search clause. -/
def substringOf (needle hay : String) : Prop :=
  List.IsInfix needle.data hay.data

/-- Filter predicate read literally from the frozen claim: one equality clause
for each parameter that is provided (present in the query string, whatever its
value), and for search a disjunctive substring clause over title and
description. -/
def providedFilter (q : ListQuery) (t : Task) : Prop :=
  (∀ s, q.status = some s → t.status = s) ∧
  (∀ s, q.priority = some s → t.priority = s) ∧
  (∀ s, q.projectId = some s → ∃ n, jsParseInt s = some n ∧ t.projectId = n) ∧
  (∀ s, q.assignedTo = some s → ∃ n, jsParseInt s = some n ∧ t.assignedTo = some n) ∧
  (∀ s, q.search = some s →
    (substringOf s t.title ∨ ∃ d, t.description = some d ∧ substringOf s d))

/-- Filter predicate of the amended claim: as providedFilter, except that a
parameter supplied with an empty-string value contributes no clause (the
handler tests each parameter for JavaScript truthiness, and the empty string
is falsy). -/
def nonEmptyProvidedFilter (q : ListQuery) (t : Task) : Prop :=
  (∀ s, truthy q.status = some s → t.status = s) ∧
  (∀ s, truthy q.priority = some s → t.priority = s) ∧
  (∀ s, truthy q.projectId = some s → ∃ n, jsParseInt s = some n ∧ t.projectId = n) ∧
  (∀ s, truthy q.assignedTo = some s →
    ∃ n, jsParseInt s = some n ∧ t.assignedTo = some n) ∧
  (∀ s, truthy q.search = some s →
    (substringOf s t.title ∨ ∃ d, t.description = some d ∧ substringOf s d))

/-- Concrete fixture: a stored task used by the witnesses, created by user 7. -/
def sampleTask : Task :=
  ⟨1, "Fix bug", none, "todo", "medium", 5, none, 7, none, 100, 100⟩

/-- Concrete fixture: a one-task store whose next serial id is 2. -/
def sampleStore : Store := ⟨[sampleTask], 2⟩

/-- Concrete fixture: a create body omitting status and priority and smuggling
a createdBy value. -/
def sampleCreateBody : RawCreatePayload :=
  ⟨some "Fix bug", none, none, none, some 5, none, none, some 99⟩

/-- Claim C1: for every valid create payload processed on behalf of an
authenticated identity u, the created task has status todo when status is
omitted, priority medium when priority is omitted, and createdBy equal to
u.id even when the payload itself supplies a createdBy value (the payload is
quantified over bodies carrying an arbitrary createdBy key). -/
theorem create_defaults_and_creator (u : Identity) (p : RawCreatePayload) (now : Int)
    (store : Store) (v : CreateData) (hv : createTaskSchema p = some v) :
    ∃ t, (createTaskRoute u p now store).1 = CreateResult.created t ∧
      (p.status = none → t.status = "todo") ∧
      (p.priority = none → t.priority = "medium") ∧
      t.createdBy = u.id := by
  obtain ⟨hs, hpr, -⟩ := createTaskSchema_fields p v hv
  refine ⟨{ id := store.nextId, title := v.title, description := v.description,
            status := v.status, priority := v.priority, projectId := v.projectId,
            assignedTo := v.assignedTo, createdBy := u.id, dueDate := v.dueDate,
            createdAt := now, updatedAt := now },
          by simp [createTaskRoute, hv], ?_, ?_, rfl⟩
  · intro h0
    simp only []
    rw [hs, h0]
    rfl
  · intro h0
    simp only []
    rw [hpr, h0]
    rfl

/-- Witness for C1: user 7 creates a task from a body that omits status and
priority and supplies createdBy 99; the created row defaults to todo/medium
and is owned by 7. -/
theorem create_defaults_and_creator_witness :
    ∃ t, (createTaskRoute ⟨7, "user"⟩ sampleCreateBody 100 ⟨[], 1⟩).1 =
        CreateResult.created t ∧
      (sampleCreateBody.status = none → t.status = "todo") ∧
      (sampleCreateBody.priority = none → t.priority = "medium") ∧
      t.createdBy = 7 :=
  create_defaults_and_creator ⟨7, "user"⟩ sampleCreateBody 100 ⟨[], 1⟩
    ⟨"Fix bug", none, "todo", "medium", 5, none, none⟩ (by decide)

/-- Claim C4: for every request to a protected route, the credential verifier
fails with 401 "Access token required" when no bearer token can be extracted
from the Authorization header, fails with 403 "Invalid or expired token" when
jwt.verify reports the token invalid, expired or tampered, fails with 500
"Authentication error" on any other internal failure, and on success attaches
the identity with id and role taken from the decoded claims. -/
theorem authenticateToken_cases (verify : String → VerifyOutcome)
    (h : Option String) :
    (extractToken h = none →
      authenticateToken verify h = MwResult.halt ⟨401, "Access token required"⟩) ∧
    (∀ t, extractToken h = some t →
      (verify t = VerifyOutcome.tokenError →
        authenticateToken verify h = MwResult.halt ⟨403, "Invalid or expired token"⟩) ∧
      (verify t = VerifyOutcome.internalError →
        authenticateToken verify h = MwResult.halt ⟨500, "Authentication error"⟩) ∧
      (∀ uid role, verify t = VerifyOutcome.ok uid role →
        authenticateToken verify h = MwResult.next ⟨uid, role⟩)) := by
  constructor
  · intro he
    simp [authenticateToken, he]
  · intro t ht
    refine ⟨?_, ?_, ?_⟩
    · intro hv
      simp [authenticateToken, ht, hv]
    · intro hv
      simp [authenticateToken, ht, hv]
    · intro uid role hv
      simp [authenticateToken, ht, hv]

/-- Witness for C4: a concrete run of each branch of authenticateToken via the
theorem — success on a well-formed bearer header, 401 on a missing header. -/
theorem authenticateToken_cases_witness :
    authenticateToken (fun _ => VerifyOutcome.ok 7 "user") (some "Bearer tok") =
      MwResult.next ⟨7, "user"⟩ ∧
    authenticateToken (fun _ => VerifyOutcome.ok 7 "user") none =
      MwResult.halt ⟨401, "Access token required"⟩ :=
  ⟨((authenticateToken_cases (fun _ => VerifyOutcome.ok 7 "user")
      (some "Bearer tok")).2 "tok" (by decide)).2.2 7 "user" rfl,
   (authenticateToken_cases (fun _ => VerifyOutcome.ok 7 "user") none).1 rfl⟩

/-- Claim C8: the authorization gate succeeds exactly when a verified identity
is present with role admin; with an identity of any other role it halts with
403 "Admin access required", and with no identity it halts with 401
"Authentication required". -/
theorem requireAdmin_cases (u : Option Identity) :
    (∀ i, requireAdmin u = MwResult.next i ↔ (u = some i ∧ i.role = "admin")) ∧
    (∀ i, u = some i → i.role ≠ "admin" →
      requireAdmin u = MwResult.halt ⟨403, "Admin access required"⟩) ∧
    (u = none → requireAdmin u = MwResult.halt ⟨401, "Authentication required"⟩) := by
  refine ⟨?_, ?_, ?_⟩
  · intro i
    cases u with
    | none => simp [requireAdmin]
    | some j =>
      by_cases hr : j.role = "admin"
      · simp [requireAdmin, hr]
        intro hj
        rw [← hj]
        exact hr
      · simp [requireAdmin, hr]
        intro hj hri
        rw [← hj] at hri
        exact hr hri
  · intro i hu hr
    subst hu
    simp [requireAdmin, hr]
  · intro hu
    subst hu
    rfl

/-- Witness for C8: a concrete admin identity passes the gate, a concrete
non-admin identity is rejected with 403, and a missing identity gets 401. -/
theorem requireAdmin_cases_witness :
    requireAdmin (some ⟨1, "admin"⟩) = MwResult.next ⟨1, "admin"⟩ ∧
    requireAdmin (some ⟨2, "user"⟩) = MwResult.halt ⟨403, "Admin access required"⟩ ∧
    requireAdmin none = MwResult.halt ⟨401, "Authentication required"⟩ :=
  ⟨((requireAdmin_cases (some ⟨1, "admin"⟩)).1 ⟨1, "admin"⟩).mpr ⟨rfl, rfl⟩,
   (requireAdmin_cases (some ⟨2, "user"⟩)).2.1 ⟨2, "user"⟩ rfl (by decide),
   (requireAdmin_cases none).2.2 rfl⟩

/-- Concrete fixture: an update body that violates the update schema (empty
title). -/
def badUpdateBody : RawUpdatePayload := ⟨some "", none, none, none, none, none, none⟩

/-- Concrete fixture: a valid update body that also smuggles a createdBy key. -/
def doneUpdateBody : RawUpdatePayload :=
  ⟨none, none, some "done", none, none, none, some 42⟩

/-- Concrete fixture: the empty update body. -/
def emptyUpdateBody : RawUpdatePayload := ⟨none, none, none, none, none, none, none⟩

/-- Concrete fixture: the validated form of the empty update body. -/
def emptyUpdateData : UpdateData := ⟨none, none, none, none, none, none⟩

/-- Claim C5 as amended: for every numeric task id not present in storage,
GET and DELETE on /api/tasks/:id return 404 "Task not found" and leave the
store unchanged; PUT returns the same 404 with the store unchanged whenever
its body passes update validation, and otherwise returns the 400 validation
error, still leaving the store unchanged; POST never returns a 404 status. -/
theorem missing_id_routes (idStr : String) (taskId : Int) (body : RawUpdatePayload)
    (now : Int) (store : Store)
    (hid : jsParseInt idStr = some taskId)
    (habs : findTask taskId store.tasks = none) :
    getTaskRoute idStr store = GetResult.notFound ∧
    (∀ v, updateTaskSchema body = some v →
      updateTaskRoute idStr body now store = (UpdateResult.notFound, store)) ∧
    (updateTaskSchema body = none →
      updateTaskRoute idStr body now store = (UpdateResult.validationFailed, store)) ∧
    deleteTaskRoute idStr store = (DeleteResult.notFound, store) ∧
    GetResult.notFound.response = (404, some "Task not found") ∧
    UpdateResult.notFound.response = (404, some "Task not found") ∧
    DeleteResult.notFound.response = (404, some "Task not found") ∧
    (∀ u p n s, (createTaskRoute u p n s).1.httpStatus ≠ 404) := by
  refine ⟨?_, ?_, ?_, ?_, rfl, rfl, rfl, ?_⟩
  · simp [getTaskRoute, hid, habs]
  · intro v hval
    simp [updateTaskRoute, hid, hval, habs]
  · intro hval
    simp [updateTaskRoute, hid, hval]
  · simp [deleteTaskRoute, hid, habs]
  · intro u p n s
    unfold createTaskRoute
    cases hps : createTaskSchema p <;> simp [CreateResult.httpStatus]

/-- Counterexample for C5 as frozen: id 999 is numeric and absent from the
store, yet PUT with a schema-violating body answers the 400 validation error,
not the 404 the claim asserts for every such request. -/
theorem missing_id_routes_cex :
    jsParseInt "999" = some 999 ∧
    findTask 999 sampleStore.tasks = none ∧
    (updateTaskRoute "999" badUpdateBody 0 sampleStore).1 ≠ UpdateResult.notFound ∧
    (updateTaskRoute "999" badUpdateBody 0 sampleStore).1.response =
      (400, some "Validation error") :=
  ⟨by decide, by decide, by decide, by decide⟩

/-- Witness for C5: on the concrete one-task store, id 999 is absent; GET and
DELETE answer 404 with the store unchanged, and PUT with the valid body does
too. -/
theorem missing_id_routes_witness :
    getTaskRoute "999" sampleStore = GetResult.notFound ∧
    updateTaskRoute "999" doneUpdateBody 0 sampleStore =
      (UpdateResult.notFound, sampleStore) ∧
    deleteTaskRoute "999" sampleStore = (DeleteResult.notFound, sampleStore) :=
  ⟨(missing_id_routes "999" 999 doneUpdateBody 0 sampleStore
      (by decide) (by decide)).1,
   (missing_id_routes "999" 999 doneUpdateBody 0 sampleStore
      (by decide) (by decide)).2.1 ⟨none, none, some "done", none, none, none⟩
      (by decide),
   (missing_id_routes "999" 999 doneUpdateBody 0 sampleStore
      (by decide) (by decide)).2.2.2.1⟩

/-- Claim C6: for every existing task and valid partial update payload, PUT
overwrites exactly the fields present in the payload, leaves every
unspecified field unchanged, keeps id, projectId, createdBy and createdAt,
and refreshes updatedAt; the empty payload passes validation and changes only
updatedAt. -/
theorem update_partial_frame (idStr : String) (taskId : Int)
    (body : RawUpdatePayload) (now : Int) (store : Store) (v : UpdateData) (t : Task)
    (hid : jsParseInt idStr = some taskId)
    (hv : updateTaskSchema body = some v)
    (ht : findTask taskId store.tasks = some t) :
    (updateTaskRoute idStr body now store).1 =
      UpdateResult.updated (applyUpdate v now t) ∧
    (∀ s, body.title = some s → (applyUpdate v now t).title = s) ∧
    (body.title = none → (applyUpdate v now t).title = t.title) ∧
    (∀ s, body.description = some s → (applyUpdate v now t).description = some s) ∧
    (body.description = none → (applyUpdate v now t).description = t.description) ∧
    (∀ s, body.status = some s → (applyUpdate v now t).status = s) ∧
    (body.status = none → (applyUpdate v now t).status = t.status) ∧
    (∀ s, body.priority = some s → (applyUpdate v now t).priority = s) ∧
    (body.priority = none → (applyUpdate v now t).priority = t.priority) ∧
    (∀ a, body.assignedTo = some a → (applyUpdate v now t).assignedTo = some a) ∧
    (body.assignedTo = none → (applyUpdate v now t).assignedTo = t.assignedTo) ∧
    (∀ d, body.dueDate = some d → (applyUpdate v now t).dueDate = some d) ∧
    (body.dueDate = none → (applyUpdate v now t).dueDate = t.dueDate) ∧
    (applyUpdate v now t).id = t.id ∧
    (applyUpdate v now t).projectId = t.projectId ∧
    (applyUpdate v now t).createdBy = t.createdBy ∧
    (applyUpdate v now t).createdAt = t.createdAt ∧
    (applyUpdate v now t).updatedAt = now ∧
    updateTaskSchema emptyUpdateBody = some emptyUpdateData ∧
    applyUpdate emptyUpdateData now t = { t with updatedAt := now } := by
  have hfields := updateTaskSchema_fields body v hv
  subst hfields
  refine ⟨by simp [updateTaskRoute, hid, hv, ht], ?_, ?_, ?_, ?_, ?_, ?_, ?_, ?_,
    ?_, ?_, ?_, ?_, rfl, rfl, rfl, rfl, rfl, by decide, ?_⟩
  · intro s hs
    simp [applyUpdate, hs]
  · intro hs
    simp [applyUpdate, hs]
  · intro s hs
    simp [applyUpdate, hs]
  · intro hs
    simp [applyUpdate, hs]
  · intro s hs
    simp [applyUpdate, hs]
  · intro hs
    simp [applyUpdate, hs]
  · intro s hs
    simp [applyUpdate, hs]
  · intro hs
    simp [applyUpdate, hs]
  · intro a ha
    simp [applyUpdate, ha]
  · intro ha
    simp [applyUpdate, ha]
  · intro d hd
    simp [applyUpdate, hd]
  · intro hd
    simp [applyUpdate, hd]
  · simp [applyUpdate, emptyUpdateData]

/-- Witness for C6: updating the stored task with a body that sets only the
status leaves every other field as it was and refreshes updatedAt. -/
theorem update_partial_frame_witness :
    (updateTaskRoute "1" doneUpdateBody 200 sampleStore).1 =
      UpdateResult.updated
        (applyUpdate ⟨none, none, some "done", none, none, none⟩ 200 sampleTask) ∧
    (applyUpdate ⟨none, none, some "done", none, none, none⟩ 200 sampleTask).title =
      sampleTask.title ∧
    (∀ s, doneUpdateBody.status = some s →
      (applyUpdate ⟨none, none, some "done", none, none, none⟩ 200 sampleTask).status = s) ∧
    (applyUpdate ⟨none, none, some "done", none, none, none⟩ 200 sampleTask).updatedAt =
      200 :=
  have h := update_partial_frame "1" 1 doneUpdateBody 200 sampleStore
    ⟨none, none, some "done", none, none, none⟩ sampleTask
    (by decide) (by decide) (by decide)
  ⟨h.1, h.2.2.1 rfl, h.2.2.2.2.2.1, h.2.2.2.2.2.2.2.2.2.2.2.2.2.2.2.2.2.1⟩

/-- Rows keep their createdBy under the PUT write-back: the merge never
touches the creator column. -/
theorem map_createdBy_applyUpdate (v : UpdateData) (now : Int) (taskId : Int)
    (l : List Task) :
    (l.map (fun t => if t.id == taskId then applyUpdate v now t else t)).map
        Task.createdBy =
      l.map Task.createdBy := by
  induction l with
  | nil => rfl
  | cons a l ih =>
    simp only [List.map_cons, ih, List.cons.injEq, and_true]
    by_cases h : a.id == taskId
    · simp [h, applyUpdate]
    · simp [h]

/-- Claim C7: a task's createdBy is never changed by PUT /api/tasks/:id: for
every request (any id string, any body — including one naming createdBy) the
creator column of every stored row is preserved, and the merged row returned
for an existing task keeps the creator of the task found. -/
theorem createdBy_immutable (idStr : String) (body : RawUpdatePayload) (now : Int)
    (store : Store) :
    (updateTaskRoute idStr body now store).2.tasks.map Task.createdBy =
      store.tasks.map Task.createdBy ∧
    (∀ taskId v t, jsParseInt idStr = some taskId →
      updateTaskSchema body = some v → findTask taskId store.tasks = some t →
      (applyUpdate v now t).createdBy = t.createdBy) := by
  constructor
  · cases hpi : jsParseInt idStr with
    | none => simp [updateTaskRoute, hpi]
    | some taskId =>
      cases hsc : updateTaskSchema body with
      | none => simp [updateTaskRoute, hpi, hsc]
      | some v =>
        cases hf : findTask taskId store.tasks with
        | none => simp [updateTaskRoute, hpi, hsc, hf]
        | some t =>
          simp only [updateTaskRoute, hpi, hsc, hf]
          exact map_createdBy_applyUpdate v now taskId store.tasks
  · intro taskId v t _ _ _
    rfl

/-- Witness for C7: a concrete update whose body smuggles createdBy 42 leaves
the creator column of the store untouched and the returned row owned by 7. -/
theorem createdBy_immutable_witness :
    (updateTaskRoute "1" doneUpdateBody 200 sampleStore).2.tasks.map Task.createdBy =
      sampleStore.tasks.map Task.createdBy ∧
    (applyUpdate ⟨none, none, some "done", none, none, none⟩ 200 sampleTask).createdBy =
      sampleTask.createdBy :=
  ⟨(createdBy_immutable "1" doneUpdateBody 200 sampleStore).1,
   (createdBy_immutable "1" doneUpdateBody 200 sampleStore).2 1
     ⟨none, none, some "done", none, none, none⟩ sampleTask
     (by decide) (by decide) (by decide)⟩

/-- Claim C9: whenever the :id path parameter does not parse to a number
(parseInt yields NaN), GET, PUT and DELETE on /api/tasks/:id answer 400
"Invalid task ID" for every store and every request body — in particular
before any payload validation or storage lookup could run — rather than the
404 used for absent ids. -/
theorem invalid_id_rejected (idStr : String) (body : RawUpdatePayload) (now : Int)
    (store : Store) (h : jsParseInt idStr = none) :
    getTaskRoute idStr store = GetResult.invalidId ∧
    updateTaskRoute idStr body now store = (UpdateResult.invalidId, store) ∧
    deleteTaskRoute idStr store = (DeleteResult.invalidId, store) ∧
    GetResult.invalidId.response = (400, some "Invalid task ID") ∧
    UpdateResult.invalidId.response = (400, some "Invalid task ID") ∧
    DeleteResult.invalidId.response = (400, some "Invalid task ID") := by
  refine ⟨?_, ?_, ?_, rfl, rfl, rfl⟩
  · simp [getTaskRoute, h]
  · simp [updateTaskRoute, h]
  · simp [deleteTaskRoute, h]

/-- Witness for C9: the non-numeric id "abc" is rejected with 400 on a
concrete store even though the request body would itself fail validation. -/
theorem invalid_id_rejected_witness :
    getTaskRoute "abc" ⟨[], 1⟩ = GetResult.invalidId ∧
    updateTaskRoute "abc" ⟨some "", none, none, none, none, none, none⟩ 0 ⟨[], 1⟩ =
      (UpdateResult.invalidId, ⟨[], 1⟩) ∧
    deleteTaskRoute "abc" ⟨[], 1⟩ = (DeleteResult.invalidId, ⟨[], 1⟩) :=
  ⟨(invalid_id_rejected "abc" ⟨some "", none, none, none, none, none, none⟩ 0 ⟨[], 1⟩
      (by decide)).1,
   (invalid_id_rejected "abc" ⟨some "", none, none, none, none, none, none⟩ 0 ⟨[], 1⟩
      (by decide)).2.1,
   (invalid_id_rejected "abc" ⟨some "", none, none, none, none, none, none⟩ 0 ⟨[], 1⟩
      (by decide)).2.2.1⟩

/-- Claim C10: in PUT /api/tasks/:id, payload validation runs before the
existence check — a request with a numeric id absent from storage and a body
violating the update schema is answered 400 "Validation error", not 404, and
the store is unchanged. -/
theorem update_validation_precedes_existence (idStr : String) (taskId : Int)
    (body : RawUpdatePayload) (now : Int) (store : Store)
    (hid : jsParseInt idStr = some taskId)
    (_habs : findTask taskId store.tasks = none)
    (hbad : updateTaskSchema body = none) :
    updateTaskRoute idStr body now store = (UpdateResult.validationFailed, store) ∧
    UpdateResult.validationFailed.response = (400, some "Validation error") ∧
    (updateTaskRoute idStr body now store).1 ≠ UpdateResult.notFound := by
  have hres : updateTaskRoute idStr body now store =
      (UpdateResult.validationFailed, store) := by
    simp [updateTaskRoute, hid, hbad]
  exact ⟨hres, rfl, by rw [hres]; simp⟩

/-- Witness for C10: updating the absent id 999 with an empty title is
answered with the validation error, on a concrete one-task store. -/
theorem update_validation_precedes_existence_witness :
    updateTaskRoute "999" ⟨some "", none, none, none, none, none, none⟩ 0
      ⟨[⟨1, "Fix bug", none, "todo", "medium", 5, none, 7, none, 100, 100⟩], 2⟩ =
    (UpdateResult.validationFailed,
      ⟨[⟨1, "Fix bug", none, "todo", "medium", 5, none, 7, none, 100, 100⟩], 2⟩) :=
  (update_validation_precedes_existence "999" 999
    ⟨some "", none, none, none, none, none, none⟩ 0
    ⟨[⟨1, "Fix bug", none, "todo", "medium", 5, none, 7, none, 100, 100⟩], 2⟩
    (by decide) (by decide) (by decide)).1

/-- A string equality clause holds exactly when the column equals every truthy
value of the parameter. -/
theorem strClause_iff (o : Option String) (x : String) :
    strClause o x = true ↔ ∀ s, truthy o = some s → x = s := by
  unfold strClause
  cases h : truthy o <;> simp

/-- An integer equality clause holds exactly when the truthy parameter parses
and the column equals the parsed value. -/
theorem intEqClause_iff (o : Option String) (x : Int) :
    intEqClause o x = true ↔
      ∀ s, truthy o = some s → ∃ n, jsParseInt s = some n ∧ x = n := by
  unfold intEqClause
  cases h : truthy o with
  | none => simp
  | some s =>
    cases hn : jsParseInt s with
    | none => simp [hn]
    | some n =>
      simp [hn]
      exact eq_comm

/-- A nullable-integer equality clause holds exactly when the truthy parameter
parses and the column is non-null and equal to the parsed value. -/
theorem optIntEqClause_iff (o : Option String) (x : Option Int) :
    optIntEqClause o x = true ↔
      ∀ s, truthy o = some s → ∃ n, jsParseInt s = some n ∧ x = some n := by
  unfold optIntEqClause
  cases h : truthy o with
  | none => simp
  | some s =>
    cases hn : jsParseInt s with
    | none => simp [hn]
    | some n =>
      cases x with
      | none => simp [hn]
      | some a =>
        simp [hn]
        exact eq_comm

/-- The search clause holds exactly when every truthy search value is a
substring of the title or of a non-null description. -/
theorem searchClause_iff (o : Option String) (ti : String) (de : Option String) :
    searchClause o ti de = true ↔
      ∀ s, truthy o = some s →
        (substringOf s ti ∨ ∃ d, de = some d ∧ substringOf s d) := by
  unfold searchClause
  cases h : truthy o with
  | none => simp
  | some s => cases de <;> simp [likeContains, substringOf]

/-- Claim C2 as amended: the list predicate is the conjunction of one equality
clause per provided non-empty parameter (projectId and assignedTo parsed from
string to integer) plus, for a non-empty search, one disjunctive
case-sensitive substring clause over title and description; parameters
supplied with an empty-string value contribute no clause. -/
theorem listFilter_conjunction (q : ListQuery) (t : Task) :
    matchesQuery q t = true ↔ nonEmptyProvidedFilter q t := by
  unfold matchesQuery nonEmptyProvidedFilter
  simp only [Bool.and_eq_true, and_assoc]
  rw [strClause_iff, strClause_iff, intEqClause_iff, optIntEqClause_iff,
    searchClause_iff]

/-- Counterexample for C2 as frozen: a status parameter supplied with the
empty string is provided, yet the handler pushes no clause for it — the
sample task matches the built predicate while the claimed conjunction, which
demands status = "", rejects it. -/
theorem listFilter_conjunction_cex :
    matchesQuery ⟨some "", none, none, none, none⟩ sampleTask = true ∧
    ¬ providedFilter ⟨some "", none, none, none, none⟩ sampleTask := by
  constructor
  · decide
  · intro h
    exact absurd (h.1 "" rfl) (by decide)

/-- Witness for C2: on the sample task, the query status=todo, projectId=5,
search=bug matches, and the amended conjunction holds for it. -/
theorem listFilter_conjunction_witness :
    nonEmptyProvidedFilter ⟨some "todo", none, some "5", none, some "bug"⟩ sampleTask :=
  (listFilter_conjunction ⟨some "todo", none, some "5", none, some "bug"⟩
    sampleTask).mp (by decide)

/-- Claim C3: with zero filter parameters GET /api/tasks returns every stored
task (a permutation of the store); for every filter combination the returned
list is sorted by creation timestamp descending; and the returned count is
the length of the returned list. -/
theorem list_unfiltered_sorted_count (q : ListQuery) (store : Store) :
    List.Perm (listTasks emptyQuery store).1 store.tasks ∧
    List.Sorted createdDesc (listTasks q store).1 ∧
    (listTasks q store).2 = (listTasks q store).1.length := by
  refine ⟨?_, ?_, rfl⟩
  · have hall : store.tasks.filter (matchesQuery emptyQuery) = store.tasks :=
      List.filter_eq_self.mpr (fun t _ => rfl)
    unfold listTasks
    simp only [hall]
    exact List.perm_insertionSort createdDesc store.tasks
  · exact List.sorted_insertionSort createdDesc _

end Etasker
